import Mathlib

/-!
Verification development for the MTQ road-sign scraper (`scraperMTQ.py`).

The embedding models the scan controller (`scraper`), the image-presence
probe (`check_image`), the checkpoint store (`cid.csv`, a list of rows
manipulated with append + immediate save), and the dataset merge
(`update_signal_data`, a concatenation followed by drop-duplicates on the
`cid` column keeping the last occurrence).

Network and document behaviour is abstracted as an environment `Env`:
for each CID it fixes the outcome of the image-presence probe, the
detail-page fetch, the field extraction, and the image download.  A `none`
outcome for a `requests.get` call models a raised connection error; a
`some` status code models a completed HTTP response.  A `none` extraction
models an exception raised inside the `try` block of the scraper before
the image request.  Raised exceptions that the source does not catch make
the run abort (`Except.error`), carrying the side effects persisted so far.
-/

namespace MtqScrap

/-- The three execution modes of `scraper` (`"full"`, `"minimal"`,
`"partial"`; the last constructor is named `part` here). -/
inductive ScanMode where
  | full
  | minimal
  | part
deriving DecidableEq, Repr

/-- One row of `cid.csv`: a CID together with the recorded image flag. -/
structure CheckRow where
  cid : Nat
  has_image : Bool
deriving DecidableEq, Repr

/-- The nine extracted text fields of a detail page (each already
defaulted to `"N/A"` by the extractor when a label is absent). -/
structure Fields where
  Numero : String
  Nom : String
  Reference_Tome_V : String
  Reference_VHR : String
  Description : String
  Usages : String
  Couleur : String
  Type_Pellicule : String
  Dimensions : String
deriving DecidableEq, Repr

/-- One row of `signaux_routiers.csv`: the `data` dictionary built per CID. -/
structure Record where
  cid : Nat
  Numero : String
  Nom : String
  Reference_Tome_V : String
  Reference_VHR : String
  Description : String
  Usages : String
  Couleur : String
  Type_Pellicule : String
  Dimensions : String
deriving DecidableEq, Repr

/-- Build the per-CID `data` dictionary from extracted fields
(the source sets `data["cid"] = cid` first, then the extracted fields). -/
def mkRecord (cid : Nat) (f : Fields) : Record :=
  { cid := cid
    Numero := f.Numero
    Nom := f.Nom
    Reference_Tome_V := f.Reference_Tome_V
    Reference_VHR := f.Reference_VHR
    Description := f.Description
    Usages := f.Usages
    Couleur := f.Couleur
    Type_Pellicule := f.Type_Pellicule
    Dimensions := f.Dimensions }

/-- Remote-world oracle.  `probe cid` is the `requests.get` inside
`check_image` (`none` = connection error raised; `some (status, present)` =
response with the given status whose parsed page does/does not contain the
`Image220Centrer` image).  `fetchStatus cid` is the detail-page
`requests.get` in the scraper loop.  `extract cid` is the field-extraction
part of the `try` block (`none` = an exception raised before the image
request).  `imgFetch cid` is the image `requests.get` inside the `try`
block (`none` = connection error raised there, which the `except` catches). -/
structure Env where
  probe : Nat → Option (Nat × Bool)
  fetchStatus : Nat → Option Nat
  extract : Nat → Option Fields
  imgFetch : Nat → Option Nat

/-- `check_image(cid)`: returns `False` on a non-200 status, otherwise
whether the parsed page has an image; a raised connection error is an
`Except.error` that the caller does not catch. -/
def check_image (env : Env) (cid : Nat) : Except Unit Bool :=
  match env.probe cid with
  | none => Except.error ()
  | some (status, present) =>
      if status != 200 then Except.ok false else Except.ok present

/-- Observable side-effect state of one `scraper` run.
`cid_rows` is the in-memory `cid_df`, `cidSaves` counts `save_cid_data`
calls, `data_list` is the in-memory batch of fetched records, `images`
the CIDs whose image file was written, `reqs` the CIDs of issued HTTP
requests (in order, one entry per request), `sleeps` the CIDs after which
`time.sleep(0.25)` ran, `datasetSaves` counts `to_csv` writes of the
dataset, and `csvFile` the dataset CSV content written this run (if any). -/
structure ScanState where
  cid_rows : List CheckRow
  cidSaves : Nat
  data_list : List Record
  images : List Nat
  reqs : List Nat
  sleeps : List Nat
  datasetSaves : Nat
  csvFile : Option (List Record)
deriving DecidableEq, Repr

/-- The two inline `continue` guards at the top of the scraper loop:
`minimal` skips a CID already in `existing_cids`; the third mode skips a
CID in `existing_cids` whose first matching row of the current `cid_df`
has `has_image == False`; `full` never skips. -/
def shouldSkip (mode : ScanMode) (snap : List Nat) (rows : List CheckRow) (cid : Nat) : Bool :=
  (mode == ScanMode.minimal && snap.contains cid) ||
  (mode == ScanMode.part && (snap.contains cid &&
    ((rows.find? (fun r => r.cid == cid)).map CheckRow.has_image == some false)))

/-- Keep the last occurrence of each CID, preserving the relative order of
the kept rows: the embedding of
`drop_duplicates(subset=["cid"], keep="last")`. -/
def dedupLastByCid : List Record → List Record
  | [] => []
  | r :: rs =>
      if rs.any (fun s => s.cid == r.cid) then dedupLastByCid rs
      else r :: dedupLastByCid rs

/-- `update_signal_data(existing_df, new_data)`: concatenate then drop
duplicate CIDs keeping the last occurrence. -/
def update_signal_data (existing_df new_data : List Record) : List Record :=
  dedupLastByCid (existing_df ++ new_data)

/-- The body of the scraper loop for one CID.  A `Except.error` result is
an uncaught exception aborting the whole run (carrying the side effects
persisted so far). -/
def processCid (env : Env) (mode : ScanMode) (snap : List Nat)
    (st : ScanState) (cid : Nat) : Except ScanState ScanState :=
  if shouldSkip mode snap st.cid_rows cid then
    Except.ok st
  else
    -- check_image issues its GET before it can fail or return
    let st1 := { st with reqs := st.reqs ++ [cid] }
    match check_image env cid with
    | Except.error _ => Except.error st1
    | Except.ok has_image =>
      if !has_image then
        -- no image: append {cid, False} to cid_df and save immediately
        Except.ok { st1 with
          cid_rows := st1.cid_rows ++ [⟨cid, false⟩]
          cidSaves := st1.cidSaves + 1 }
      else
        -- detail-page GET
        let st2 := { st1 with reqs := st1.reqs ++ [cid] }
        match env.fetchStatus cid with
        | none => Except.error st2
        | some code =>
          if code != 200 then
            Except.ok st2
          else
            match env.extract cid with
            | none => Except.ok st2   -- exception caught by the except clause
            | some f =>
              -- image GET inside the try block
              let st3 := { st2 with reqs := st2.reqs ++ [cid] }
              match env.imgFetch cid with
              | none => Except.ok st3 -- connection error caught by the except clause
              | some icode =>
                let st4 :=
                  if icode == 200 then { st3 with images := st3.images ++ [cid] }
                  else st3
                Except.ok { st4 with
                  cid_rows := st4.cid_rows ++ [⟨cid, true⟩]
                  cidSaves := st4.cidSaves + 1
                  data_list := st4.data_list ++ [mkRecord cid f]
                  sleeps := st4.sleeps ++ [cid] }

/-- The scraper loop: fold `processCid` over the CID range, stopping at
the first uncaught exception. -/
def runRange (env : Env) (mode : ScanMode) (snap : List Nat) :
    List Nat → ScanState → Except ScanState ScanState
  | [], st => Except.ok st
  | c :: cs, st =>
      match processCid env mode snap st c with
      | Except.error st' => Except.error st'
      | Except.ok st' => runRange env mode snap cs st'

/-- `range(cid_start, cid_end + 1)`. -/
def cidRange (cid_start cid_end : Nat) : List Nat :=
  List.range' cid_start (cid_end + 1 - cid_start)

/-- The state at the start of a run, before the loop. -/
def initState (priorCid : List CheckRow) : ScanState :=
  { cid_rows := priorCid
    cidSaves := 0
    data_list := []
    images := []
    reqs := []
    sleeps := []
    datasetSaves := 0
    csvFile := none }

/-- `scraper(cid_start, cid_end, mode)` run against prior store contents.
The `Unit` component of a successful result is the Python return value
(`None`); the `ScanState` records the side effects.  After the loop the
dataset is merged and written once, and only when `data_list` is
non-empty. -/
def scraper (env : Env) (cid_start cid_end : Nat) (mode : ScanMode)
    (priorCid : List CheckRow) (priorSignal : List Record) :
    Except ScanState (Unit × ScanState) :=
  let existing_cids := priorCid.map CheckRow.cid
  match runRange env mode existing_cids (cidRange cid_start cid_end) (initState priorCid) with
  | Except.error st => Except.error st
  | Except.ok st =>
      if st.data_list.isEmpty then
        Except.ok ((), st)
      else
        Except.ok ((), { st with
          datasetSaves := st.datasetSaves + 1
          csvFile := some (update_signal_data priorSignal st.data_list) })

/-- State carried by a loop result, whether the run aborted or not. -/
def stateOf : Except ScanState ScanState → ScanState
  | Except.error st => st
  | Except.ok st => st

/-- State carried by a full `scraper` result, whether it aborted or not. -/
def finalState : Except ScanState (Unit × ScanState) → ScanState
  | Except.error st => st
  | Except.ok (_, st) => st

/-- The Python return value of a completed `scraper` call
(`none` when the run raised). -/
def pyReturn : Except ScanState (Unit × ScanState) → Option Unit
  | Except.error _ => none
  | Except.ok (u, _) => some u

/-- The checkpoint rows recorded for one CID. -/
def rowsFor (rows : List CheckRow) (c : Nat) : List CheckRow :=
  rows.filter (fun r => r.cid == c)

/-- The records of a batch or dataset carrying one CID. -/
def recsFor (rs : List Record) (c : Nat) : List Record :=
  rs.filter (fun r => r.cid == c)

/-! ### Effect shape of one loop iteration -/

/-- What one loop iteration for CID `c` may do to the state: append at most
one checkpoint row (for `c`, persisted immediately), append records only
for `c`, issue requests only for `c`, sleep exactly once per appended
record, and leave the dataset file untouched. -/
def StepDelta (st st' : ScanState) (c : Nat) : Prop :=
  ∃ ext dext rext,
    st'.cid_rows = st.cid_rows ++ ext ∧
    st'.data_list = st.data_list ++ dext ∧
    st'.reqs = st.reqs ++ rext ∧
    st'.sleeps = st.sleeps ++ dext.map Record.cid ∧
    st'.datasetSaves = st.datasetSaves ∧
    st'.csvFile = st.csvFile ∧
    st'.cidSaves = st.cidSaves + ext.length ∧
    ext.length ≤ 1 ∧
    (∀ r ∈ ext, r.cid = c) ∧ (∀ r ∈ dext, r.cid = c) ∧ (∀ x ∈ rext, x = c)

theorem processCid_effects (env : Env) (mode : ScanMode) (snap : List Nat)
    (st : ScanState) (c : Nat) :
    StepDelta st (stateOf (processCid env mode snap st c)) c := by
  unfold processCid
  by_cases hs : shouldSkip mode snap st.cid_rows c
  · exact ⟨[], [], [], by simp [hs, stateOf]⟩
  · rw [if_neg hs]
    cases hci : check_image env c with
    | error u => exact ⟨[], [], [c], by simp [stateOf]⟩
    | ok hi =>
      cases hi with
      | false => exact ⟨[⟨c, false⟩], [], [c], by simp [stateOf]⟩
      | true =>
        cases hf : env.fetchStatus c with
        | none => exact ⟨[], [], [c, c], by simp [stateOf]⟩
        | some code =>
          by_cases hcode : code != 200
          · exact ⟨[], [], [c, c], by simp [stateOf, hcode]⟩
          · cases hx : env.extract c with
            | none => exact ⟨[], [], [c, c], by simp [stateOf, hcode]⟩
            | some f =>
              cases hg : env.imgFetch c with
              | none => exact ⟨[], [], [c, c, c], by simp [stateOf, hcode]⟩
              | some icode =>
                by_cases hic : icode == 200
                · exact ⟨[⟨c, true⟩], [mkRecord c f], [c, c, c],
                    by simp [stateOf, hcode, hic, mkRecord]⟩
                · exact ⟨[⟨c, true⟩], [mkRecord c f], [c, c, c],
                    by simp [stateOf, hcode, hic, mkRecord]⟩

/-! ### Exact results of one loop iteration, per branch of the source -/

theorem step_skip (env : Env) (mode : ScanMode) (snap : List Nat)
    (st : ScanState) (c : Nat) (hs : shouldSkip mode snap st.cid_rows c = true) :
    processCid env mode snap st c = Except.ok st := by
  simp [processCid, hs]

/-- A connection error raised inside `check_image` is not caught anywhere:
the run aborts. -/
theorem step_probe_conn_fail (env : Env) (mode : ScanMode) (snap : List Nat)
    (st : ScanState) (c : Nat)
    (hs : shouldSkip mode snap st.cid_rows c = false)
    (hp : env.probe c = none) :
    processCid env mode snap st c =
      Except.error { st with reqs := st.reqs ++ [c] } := by
  simp [processCid, hs, check_image, hp]

/-- A non-success status on the probe makes `check_image` return `False`,
so the scraper records `{cid, has_image: False}` and saves `cid.csv`. -/
theorem step_probe_bad_status (env : Env) (mode : ScanMode) (snap : List Nat)
    (st : ScanState) (c : Nat) (s : Nat) (p : Bool)
    (hs : shouldSkip mode snap st.cid_rows c = false)
    (hp : env.probe c = some (s, p)) (hns : s ≠ 200) :
    processCid env mode snap st c =
      Except.ok { st with
        cid_rows := st.cid_rows ++ [⟨c, false⟩]
        cidSaves := st.cidSaves + 1
        reqs := st.reqs ++ [c] } := by
  simp [processCid, hs, check_image, hp, hns]

/-- A probed page without an image: checkpoint row `{cid, False}`,
saved immediately, and nothing else. -/
theorem step_no_image (env : Env) (mode : ScanMode) (snap : List Nat)
    (st : ScanState) (c : Nat)
    (hs : shouldSkip mode snap st.cid_rows c = false)
    (hp : env.probe c = some (200, false)) :
    processCid env mode snap st c =
      Except.ok { st with
        cid_rows := st.cid_rows ++ [⟨c, false⟩]
        cidSaves := st.cidSaves + 1
        reqs := st.reqs ++ [c] } := by
  simp [processCid, hs, check_image, hp]

/-- A connection error raised by the detail-page `requests.get` is outside
the `try` block: the run aborts. -/
theorem step_fetch_conn_fail (env : Env) (mode : ScanMode) (snap : List Nat)
    (st : ScanState) (c : Nat)
    (hs : shouldSkip mode snap st.cid_rows c = false)
    (hp : env.probe c = some (200, true))
    (hf : env.fetchStatus c = none) :
    processCid env mode snap st c =
      Except.error { st with reqs := (st.reqs ++ [c]) ++ [c] } := by
  simp [processCid, hs, check_image, hp, hf]

/-- A non-success status on the detail-page fetch: logged and skipped with
`continue`; no checkpoint row, no record. -/
theorem step_fetch_bad_status (env : Env) (mode : ScanMode) (snap : List Nat)
    (st : ScanState) (c : Nat) (k : Nat)
    (hs : shouldSkip mode snap st.cid_rows c = false)
    (hp : env.probe c = some (200, true))
    (hf : env.fetchStatus c = some k) (hk : k ≠ 200) :
    processCid env mode snap st c =
      Except.ok { st with reqs := (st.reqs ++ [c]) ++ [c] } := by
  simp [processCid, hs, check_image, hp, hf, hk]

/-- An exception during extraction is caught by the `except` clause:
no checkpoint row, no record, scan continues. -/
theorem step_extract_none (env : Env) (mode : ScanMode) (snap : List Nat)
    (st : ScanState) (c : Nat)
    (hs : shouldSkip mode snap st.cid_rows c = false)
    (hp : env.probe c = some (200, true))
    (hf : env.fetchStatus c = some 200)
    (hx : env.extract c = none) :
    processCid env mode snap st c =
      Except.ok { st with reqs := (st.reqs ++ [c]) ++ [c] } := by
  simp [processCid, hs, check_image, hp, hf, hx]

/-- A connection error on the image download happens inside the `try`
block: caught, no checkpoint row, no record, scan continues. -/
theorem step_img_conn_fail (env : Env) (mode : ScanMode) (snap : List Nat)
    (st : ScanState) (c : Nat) (f : Fields)
    (hs : shouldSkip mode snap st.cid_rows c = false)
    (hp : env.probe c = some (200, true))
    (hf : env.fetchStatus c = some 200)
    (hx : env.extract c = some f)
    (hg : env.imgFetch c = none) :
    processCid env mode snap st c =
      Except.ok { st with reqs := ((st.reqs ++ [c]) ++ [c]) ++ [c] } := by
  simp [processCid, hs, check_image, hp, hf, hx, hg]

/-- A non-success status on the image download only skips the file write:
the checkpoint row `{cid, True}` is still appended and saved, the record
is still appended, and the sleep still runs. -/
theorem step_img_bad_status (env : Env) (mode : ScanMode) (snap : List Nat)
    (st : ScanState) (c : Nat) (f : Fields) (k : Nat)
    (hs : shouldSkip mode snap st.cid_rows c = false)
    (hp : env.probe c = some (200, true))
    (hf : env.fetchStatus c = some 200)
    (hx : env.extract c = some f)
    (hg : env.imgFetch c = some k) (hk : k ≠ 200) :
    processCid env mode snap st c =
      Except.ok { st with
        cid_rows := st.cid_rows ++ [⟨c, true⟩]
        cidSaves := st.cidSaves + 1
        data_list := st.data_list ++ [mkRecord c f]
        reqs := ((st.reqs ++ [c]) ++ [c]) ++ [c]
        sleeps := st.sleeps ++ [c] } := by
  simp [processCid, hs, check_image, hp, hf, hx, hg, hk]

/-- The fully successful branch: image file written, checkpoint row
`{cid, True}` appended and saved, record appended, sleep applied. -/
theorem step_success (env : Env) (mode : ScanMode) (snap : List Nat)
    (st : ScanState) (c : Nat) (f : Fields)
    (hs : shouldSkip mode snap st.cid_rows c = false)
    (hp : env.probe c = some (200, true))
    (hf : env.fetchStatus c = some 200)
    (hx : env.extract c = some f)
    (hg : env.imgFetch c = some 200) :
    processCid env mode snap st c =
      Except.ok { st with
        cid_rows := st.cid_rows ++ [⟨c, true⟩]
        cidSaves := st.cidSaves + 1
        data_list := st.data_list ++ [mkRecord c f]
        images := st.images ++ [c]
        reqs := ((st.reqs ++ [c]) ++ [c]) ++ [c]
        sleeps := st.sleeps ++ [c] } := by
  simp [processCid, hs, check_image, hp, hf, hx, hg]

/-! ### Consequences of the step shape -/

theorem StepDelta.filter_ne {st st' : ScanState} {c : Nat} (h : StepDelta st st' c)
    (c' : Nat) (hne : c' ≠ c) :
    rowsFor st'.cid_rows c' = rowsFor st.cid_rows c' ∧
    recsFor st'.data_list c' = recsFor st.data_list c' := by
  obtain ⟨ext, dext, rext, hrows, hdata, -, -, -, -, -, -, hext, hdext, -⟩ := h
  constructor
  · rw [rowsFor, hrows, List.filter_append]
    have hnil : ext.filter (fun r => r.cid == c') = [] := by
      refine List.filter_eq_nil_iff.mpr (fun r hr => ?_)
      simp only [beq_iff_eq, hext r hr]
      exact fun hh => hne hh.symm
    rw [hnil, List.append_nil, rowsFor]
  · rw [recsFor, hdata, List.filter_append]
    have hnil : dext.filter (fun r => r.cid == c') = [] := by
      refine List.filter_eq_nil_iff.mpr (fun r hr => ?_)
      simp only [beq_iff_eq, hdext r hr]
      exact fun hh => hne hh.symm
    rw [hnil, List.append_nil, recsFor]

theorem StepDelta.count_le {st st' : ScanState} {c : Nat} (h : StepDelta st st' c)
    (c' : Nat) :
    (rowsFor st'.cid_rows c').length ≤
      (rowsFor st.cid_rows c').length + (if c' = c then 1 else 0) := by
  by_cases hc : c' = c
  · subst hc
    obtain ⟨ext, dext, rext, hrows, -, -, -, -, -, -, hlen, -, -, -⟩ := h
    have hfl : (ext.filter (fun r => r.cid == c')).length ≤ 1 :=
      le_trans (List.length_filter_le _ _) hlen
    rw [if_pos rfl]
    simp only [rowsFor, hrows, List.filter_append, List.length_append]
    omega
  · rw [(h.filter_ne c' hc).1]
    simp [hc]

/-! ### Effect shape of a whole loop run -/

/-- What a run of the loop over the CID list `L` does to the state:
append-only growth of the checkpoint rows, batch, request log and sleep
log (all attributable to CIDs of `L`), one `save_cid_data` per appended
checkpoint row, one sleep per appended record, and no dataset write at
all. -/
def RunDelta (L : List Nat) (st st' : ScanState) : Prop :=
  ∃ ext dext rext,
    st'.cid_rows = st.cid_rows ++ ext ∧
    st'.data_list = st.data_list ++ dext ∧
    st'.reqs = st.reqs ++ rext ∧
    st'.sleeps = st.sleeps ++ dext.map Record.cid ∧
    st'.datasetSaves = st.datasetSaves ∧
    st'.csvFile = st.csvFile ∧
    st'.cidSaves = st.cidSaves + ext.length ∧
    (∀ r ∈ ext, r.cid ∈ L) ∧ (∀ r ∈ dext, r.cid ∈ L) ∧ (∀ x ∈ rext, x ∈ L)

theorem runRange_delta (env : Env) (mode : ScanMode) (snap : List Nat)
    (L : List Nat) (st : ScanState) :
    RunDelta L st (stateOf (runRange env mode snap L st)) := by
  induction L generalizing st with
  | nil => exact ⟨[], [], [], by simp [runRange, stateOf]⟩
  | cons a L ih =>
    have hd := processCid_effects env mode snap st a
    cases hp : processCid env mode snap st a with
    | error st' =>
      rw [hp] at hd; simp only [stateOf] at hd
      obtain ⟨e, d, r, h1, h2, h3, h4, h5, h6, h7, -, he, hdx, hr⟩ := hd
      have hrw : runRange env mode snap (a :: L) st = Except.error st' := by
        simp [runRange, hp]
      rw [hrw]; simp only [stateOf]
      exact ⟨e, d, r, h1, h2, h3, h4, h5, h6, h7,
        fun x hx => by simp [he x hx], fun x hx => by simp [hdx x hx],
        fun x hx => by simp [hr x hx]⟩
    | ok st' =>
      rw [hp] at hd; simp only [stateOf] at hd
      obtain ⟨e1, d1, r1, h1, h2, h3, h4, h5, h6, h7, -, he1, hd1, hr1⟩ := hd
      have hrw : runRange env mode snap (a :: L) st = runRange env mode snap L st' := by
        simp [runRange, hp]
      rw [hrw]
      obtain ⟨e2, d2, r2, g1, g2, g3, g4, g5, g6, g7, ge2, gd2, gr2⟩ := ih st'
      refine ⟨e1 ++ e2, d1 ++ d2, r1 ++ r2, ?_, ?_, ?_, ?_, ?_, ?_, ?_, ?_, ?_, ?_⟩
      · rw [g1, h1, List.append_assoc]
      · rw [g2, h2, List.append_assoc]
      · rw [g3, h3, List.append_assoc]
      · rw [g4, h4, List.map_append, List.append_assoc]
      · rw [g5, h5]
      · rw [g6, h6]
      · rw [g7, h7, List.length_append]; omega
      · intro x hx
        rcases List.mem_append.mp hx with hx1 | hx2
        · simp [he1 x hx1]
        · simp [List.mem_cons]; right; exact ge2 x hx2
      · intro x hx
        rcases List.mem_append.mp hx with hx1 | hx2
        · simp [hd1 x hx1]
        · simp [List.mem_cons]; right; exact gd2 x hx2
      · intro x hx
        rcases List.mem_append.mp hx with hx1 | hx2
        · simp [hr1 x hx1]
        · simp [List.mem_cons]; right; exact gr2 x hx2

/-- Checkpoint rows for a fixed CID grow by at most the number of times
that CID occurs in the scanned list. -/
theorem runRange_rowsFor_count (env : Env) (mode : ScanMode) (snap : List Nat)
    (L : List Nat) (st : ScanState) (c : Nat) :
    (rowsFor (stateOf (runRange env mode snap L st)).cid_rows c).length ≤
      (rowsFor st.cid_rows c).length + L.count c := by
  induction L generalizing st with
  | nil => simp [runRange, stateOf]
  | cons a L ih =>
    have hd := processCid_effects env mode snap st a
    cases hp : processCid env mode snap st a with
    | error st' =>
      rw [hp] at hd; simp only [stateOf] at hd
      have hrw : runRange env mode snap (a :: L) st = Except.error st' := by
        simp [runRange, hp]
      rw [hrw]; simp only [stateOf]
      by_cases hca : a = c
      · subst hca
        have hcnt : (a :: L).count a = L.count a + 1 := by simp [List.count_cons]
        have h1 : (rowsFor st'.cid_rows a).length ≤ (rowsFor st.cid_rows a).length + 1 := by
          simpa using hd.count_le a
        rw [hcnt]; omega
      · have hcnt : (a :: L).count c = L.count c := by simp [List.count_cons, hca]
        have h1 : (rowsFor st'.cid_rows c).length = (rowsFor st.cid_rows c).length := by
          rw [(hd.filter_ne c (fun hh => hca hh.symm)).1]
        rw [hcnt]; omega
    | ok st' =>
      rw [hp] at hd; simp only [stateOf] at hd
      have hrw : runRange env mode snap (a :: L) st = runRange env mode snap L st' := by
        simp [runRange, hp]
      rw [hrw]
      have h2 := ih st'
      by_cases hca : a = c
      · subst hca
        have hcnt : (a :: L).count a = L.count a + 1 := by simp [List.count_cons]
        have h1 : (rowsFor st'.cid_rows a).length ≤ (rowsFor st.cid_rows a).length + 1 := by
          simpa using hd.count_le a
        rw [hcnt]; omega
      · have hcnt : (a :: L).count c = L.count c := by simp [List.count_cons, hca]
        have h1 : (rowsFor st'.cid_rows c).length = (rowsFor st.cid_rows c).length := by
          rw [(hd.filter_ne c (fun hh => hca hh.symm)).1]
        rw [hcnt]; omega

/-- If the iteration at CID `c` never touches the rows or records for `c`
(whatever the incoming state), a whole run leaves them unchanged. -/
theorem runRange_preserve_of_step (env : Env) (mode : ScanMode) (snap : List Nat)
    (c : Nat)
    (hstep : ∀ st' : ScanState,
      rowsFor (stateOf (processCid env mode snap st' c)).cid_rows c =
        rowsFor st'.cid_rows c ∧
      recsFor (stateOf (processCid env mode snap st' c)).data_list c =
        recsFor st'.data_list c)
    (L : List Nat) (st : ScanState) :
    rowsFor (stateOf (runRange env mode snap L st)).cid_rows c =
      rowsFor st.cid_rows c ∧
    recsFor (stateOf (runRange env mode snap L st)).data_list c =
      recsFor st.data_list c := by
  induction L generalizing st with
  | nil => simp [runRange, stateOf]
  | cons a L ih =>
    have hd := processCid_effects env mode snap st a
    cases hp : processCid env mode snap st a with
    | error st' =>
      have hrw : runRange env mode snap (a :: L) st = Except.error st' := by
        simp [runRange, hp]
      rw [hrw]
      rw [hp] at hd; simp only [stateOf] at hd
      by_cases hca : a = c
      · subst hca
        have h0 := hstep st; rw [hp] at h0; simpa [stateOf] using h0
      · exact hd.filter_ne c (fun hh => hca hh.symm)
    | ok st' =>
      have hrw : runRange env mode snap (a :: L) st = runRange env mode snap L st' := by
        simp [runRange, hp]
      rw [hrw]
      have hih := ih st'
      by_cases hca : a = c
      · subst hca
        have h0 := hstep st; rw [hp] at h0; simp only [stateOf] at h0
        exact ⟨hih.1.trans h0.1, hih.2.trans h0.2⟩
      · rw [hp] at hd; simp only [stateOf] at hd
        have h0 := hd.filter_ne c (fun hh => hca hh.symm)
        exact ⟨hih.1.trans h0.1, hih.2.trans h0.2⟩

/-- If the iteration at CID `c` is always a pure skip, a run never issues
a request for `c`. -/
theorem runRange_no_request (env : Env) (mode : ScanMode) (snap : List Nat)
    (c : Nat)
    (hstep : ∀ st' : ScanState, processCid env mode snap st' c = Except.ok st')
    (L : List Nat) (st : ScanState) (hc : c ∉ st.reqs) :
    c ∉ (stateOf (runRange env mode snap L st)).reqs := by
  induction L generalizing st with
  | nil => simpa [runRange, stateOf]
  | cons a L ih =>
    by_cases hca : a = c
    · subst hca
      have hrw : runRange env mode snap (a :: L) st = runRange env mode snap L st := by
        simp [runRange, hstep st]
      rw [hrw]; exact ih st hc
    · have hd := processCid_effects env mode snap st a
      cases hp : processCid env mode snap st a with
      | error st' =>
        have hrw : runRange env mode snap (a :: L) st = Except.error st' := by
          simp [runRange, hp]
        rw [hrw]; simp only [stateOf]
        rw [hp] at hd; simp only [stateOf] at hd
        obtain ⟨-, -, rext, -, -, h3, -, -, -, -, -, -, -, hr⟩ := hd
        rw [h3]
        intro hmem
        rcases List.mem_append.mp hmem with hx | hx
        · exact hc hx
        · exact hca (hr c hx).symm
      | ok st' =>
        have hrw : runRange env mode snap (a :: L) st = runRange env mode snap L st' := by
          simp [runRange, hp]
        rw [hrw]
        rw [hp] at hd; simp only [stateOf] at hd
        obtain ⟨-, -, rext, -, -, h3, -, -, -, -, -, -, -, hr⟩ := hd
        refine ih st' ?_
        rw [h3]
        intro hmem
        rcases List.mem_append.mp hmem with hx | hx
        · exact hc hx
        · exact hca (hr c hx).symm

/-! ### The dataset merge: drop-duplicates keeping the last occurrence -/

theorem mem_dedupLastByCid {l : List Record} {r : Record}
    (h : r ∈ dedupLastByCid l) : r ∈ l := by
  induction l with
  | nil => simp [dedupLastByCid] at h
  | cons a l ih =>
    by_cases ha : l.any (fun s => s.cid == a.cid)
    · rw [show dedupLastByCid (a :: l) = dedupLastByCid l by
        simp [dedupLastByCid, ha]] at h
      exact List.mem_cons_of_mem a (ih h)
    · rw [show dedupLastByCid (a :: l) = a :: dedupLastByCid l by
        simp [dedupLastByCid, ha]] at h
      rcases List.mem_cons.mp h with h1 | h2
      · exact h1 ▸ List.mem_cons_self a l
      · exact List.mem_cons_of_mem a (ih h2)

theorem getLast?_cons_of_ne_nil {α : Type} (a : α) {t : List α} (h : t ≠ []) :
    (a :: t).getLast? = t.getLast? := by
  cases t with
  | nil => exact absurd rfl h
  | cons b t => exact List.getLast?_cons_cons

/-- The merge keeps, for each CID, exactly the last matching row of the
combined sequence (and nothing when there is none). -/
theorem dedupLast_filter (l : List Record) (c : Nat) :
    recsFor (dedupLastByCid l) c = ((recsFor l c).getLast?).toList := by
  induction l with
  | nil => simp [dedupLastByCid, recsFor]
  | cons a l ih =>
    by_cases ha : l.any (fun s => s.cid == a.cid)
    · rw [show dedupLastByCid (a :: l) = dedupLastByCid l by
        simp [dedupLastByCid, ha]]
      by_cases hc : a.cid = c
      · have hne : recsFor l c ≠ [] := by
          rcases List.any_eq_true.mp ha with ⟨s, hs, hps⟩
          have hsc : s.cid = c := by
            have := beq_iff_eq.mp hps
            rw [this, hc]
          intro hnil
          have : s ∈ recsFor l c := by
            simp [recsFor, List.mem_filter, hs, hsc]
          rw [hnil] at this
          exact List.not_mem_nil s this
        rw [ih, show recsFor (a :: l) c = a :: recsFor l c by
          simp [recsFor, hc]]
        rw [getLast?_cons_of_ne_nil a hne]
      · rw [ih, show recsFor (a :: l) c = recsFor l c by
          simp [recsFor, hc]]
    · rw [show dedupLastByCid (a :: l) = a :: dedupLastByCid l by
        simp [dedupLastByCid, ha]]
      by_cases hc : a.cid = c
      · have hnil : recsFor l c = [] := by
          refine List.filter_eq_nil_iff.mpr (fun s hs => ?_)
          simp only [beq_iff_eq]
          intro hsc
          refine ha (List.any_eq_true.mpr ⟨s, hs, ?_⟩)
          simp [hsc, hc]
        have hnil' : recsFor (dedupLastByCid l) c = [] := by
          rw [ih, hnil]; rfl
        rw [show recsFor (a :: dedupLastByCid l) c = a :: recsFor (dedupLastByCid l) c by
          simp [recsFor, hc]]
        rw [hnil', show recsFor (a :: l) c = a :: recsFor l c by
          simp [recsFor, hc]]
        rw [hnil]
        rfl
      · rw [show recsFor (a :: dedupLastByCid l) c = recsFor (dedupLastByCid l) c by
          simp [recsFor, hc]]
        rw [ih, show recsFor (a :: l) c = recsFor l c by
          simp [recsFor, hc]]

/-- A prefix made only of CIDs that all reappear later is dropped whole. -/
theorem dedupLast_append_subsumed {a b : List Record}
    (h : ∀ x ∈ a, ∃ y ∈ b, y.cid = x.cid) :
    dedupLastByCid (a ++ b) = dedupLastByCid b := by
  induction a with
  | nil => simp
  | cons r a ih =>
    have hany : ((a ++ b).any (fun s => s.cid == r.cid)) = true := by
      obtain ⟨y, hy, hcy⟩ := h r (List.mem_cons_self r a)
      exact List.any_eq_true.mpr ⟨y, List.mem_append_right a hy, by simp [hcy]⟩
    rw [List.cons_append, show dedupLastByCid (r :: (a ++ b)) = dedupLastByCid (a ++ b) by
      simp [dedupLastByCid, hany]]
    exact ih (fun x hx => h x (List.mem_cons_of_mem r hx))

/-- Re-deduplicating an already deduplicated prefix changes nothing. -/
theorem dedupLast_idem_left (m n : List Record) :
    dedupLastByCid (dedupLastByCid m ++ n) = dedupLastByCid (m ++ n) := by
  induction m with
  | nil => simp [dedupLastByCid]
  | cons r m ih =>
    by_cases hm : m.any (fun s => s.cid == r.cid)
    · have hmn : ((m ++ n).any (fun s => s.cid == r.cid)) = true := by
        rcases List.any_eq_true.mp hm with ⟨y, hy, hpy⟩
        exact List.any_eq_true.mpr ⟨y, List.mem_append_left n hy, hpy⟩
      rw [show dedupLastByCid (r :: m) = dedupLastByCid m by
        simp [dedupLastByCid, hm]]
      rw [List.cons_append, show dedupLastByCid (r :: (m ++ n)) = dedupLastByCid (m ++ n) by
        simp [dedupLastByCid, hmn]]
      exact ih
    · have hmfalse : m.any (fun s => s.cid == r.cid) = false :=
        Bool.eq_false_iff.mpr hm
      have hdmfalse : (dedupLastByCid m).any (fun s => s.cid == r.cid) = false := by
        refine Bool.eq_false_iff.mpr (fun hb => ?_)
        rcases List.any_eq_true.mp hb with ⟨y, hy, hpy⟩
        exact hm (List.any_eq_true.mpr ⟨y, mem_dedupLastByCid hy, hpy⟩)
      have h1 : ((dedupLastByCid m ++ n).any (fun s => s.cid == r.cid)) =
          (n.any (fun s => s.cid == r.cid)) := by
        rw [List.any_append, hdmfalse, Bool.false_or]
      have h2 : ((m ++ n).any (fun s => s.cid == r.cid)) =
          (n.any (fun s => s.cid == r.cid)) := by
        rw [List.any_append, hmfalse, Bool.false_or]
      rw [show dedupLastByCid (r :: m) = r :: dedupLastByCid m by
        simp [dedupLastByCid, hm]]
      by_cases hn : n.any (fun s => s.cid == r.cid)
      · rw [List.cons_append,
          show dedupLastByCid (r :: (dedupLastByCid m ++ n)) =
            dedupLastByCid (dedupLastByCid m ++ n) by
            simp [dedupLastByCid, h1, hn]]
        rw [List.cons_append,
          show dedupLastByCid (r :: (m ++ n)) = dedupLastByCid (m ++ n) by
            simp [dedupLastByCid, h2, hn]]
        exact ih
      · have hn' : n.any (fun s => s.cid == r.cid) = false := Bool.eq_false_iff.mpr hn
        rw [List.cons_append,
          show dedupLastByCid (r :: (dedupLastByCid m ++ n)) =
            r :: dedupLastByCid (dedupLastByCid m ++ n) by
            simp [dedupLastByCid, h1, hn']]
        rw [List.cons_append,
          show dedupLastByCid (r :: (m ++ n)) = r :: dedupLastByCid (m ++ n) by
            simp [dedupLastByCid, h2, hn']]
        rw [ih]

/-- A batch appended twice behaves like a batch appended once. -/
theorem dedupLast_append_twice (l n : List Record) :
    dedupLastByCid (l ++ (n ++ n)) = dedupLastByCid (l ++ n) := by
  induction l with
  | nil =>
      simpa using dedupLast_append_subsumed (a := n) (b := n)
        (fun x hx => ⟨x, hx, rfl⟩)
  | cons r l ih =>
    have hcond : ((l ++ (n ++ n)).any (fun s => s.cid == r.cid)) =
        ((l ++ n).any (fun s => s.cid == r.cid)) := by
      simp [List.any_append, Bool.or_self]
    by_cases h : (l ++ n).any (fun s => s.cid == r.cid)
    · rw [List.cons_append,
        show dedupLastByCid (r :: (l ++ (n ++ n))) = dedupLastByCid (l ++ (n ++ n)) by
          simp [dedupLastByCid, hcond, h]]
      rw [List.cons_append,
        show dedupLastByCid (r :: (l ++ n)) = dedupLastByCid (l ++ n) by
          simp [dedupLastByCid, h]]
      exact ih
    · have h' : (l ++ n).any (fun s => s.cid == r.cid) = false := Bool.eq_false_iff.mpr h
      rw [List.cons_append,
        show dedupLastByCid (r :: (l ++ (n ++ n))) = r :: dedupLastByCid (l ++ (n ++ n)) by
          simp [dedupLastByCid, hcond, h']]
      rw [List.cons_append,
        show dedupLastByCid (r :: (l ++ n)) = r :: dedupLastByCid (l ++ n) by
          simp [dedupLastByCid, h']]
      rw [ih]

/-- Merging the same batch a second time yields the same result. -/
theorem update_signal_data_idem (e n : List Record) :
    update_signal_data (update_signal_data e n) n = update_signal_data e n := by
  unfold update_signal_data
  rw [dedupLast_idem_left (e ++ n) n, List.append_assoc, dedupLast_append_twice]

/-! ### Bridging a full `scraper` call and its loop -/

/-- The loop part of one `scraper` call. -/
def loopResult (env : Env) (cid_start cid_end : Nat) (mode : ScanMode)
    (priorCid : List CheckRow) : Except ScanState ScanState :=
  runRange env mode (priorCid.map CheckRow.cid) (cidRange cid_start cid_end)
    (initState priorCid)

/-- `scraper` is its loop followed by the conditional dataset write. -/
theorem scraper_cases (env : Env) (a b : Nat) (mode : ScanMode)
    (pc : List CheckRow) (ps : List Record) :
    scraper env a b mode pc ps =
      match runRange env mode (pc.map CheckRow.cid) (cidRange a b) (initState pc) with
      | Except.error st => Except.error st
      | Except.ok st =>
          if st.data_list.isEmpty then Except.ok ((), st)
          else Except.ok ((), { st with
            datasetSaves := st.datasetSaves + 1
            csvFile := some (update_signal_data ps st.data_list) }) := rfl

/-- Everything except the dataset write is decided by the loop. -/
theorem scraper_state (env : Env) (a b : Nat) (mode : ScanMode)
    (pc : List CheckRow) (ps : List Record) :
    (finalState (scraper env a b mode pc ps)).cid_rows =
      (stateOf (loopResult env a b mode pc)).cid_rows ∧
    (finalState (scraper env a b mode pc ps)).data_list =
      (stateOf (loopResult env a b mode pc)).data_list ∧
    (finalState (scraper env a b mode pc ps)).reqs =
      (stateOf (loopResult env a b mode pc)).reqs ∧
    (finalState (scraper env a b mode pc ps)).sleeps =
      (stateOf (loopResult env a b mode pc)).sleeps ∧
    (finalState (scraper env a b mode pc ps)).images =
      (stateOf (loopResult env a b mode pc)).images ∧
    (finalState (scraper env a b mode pc ps)).cidSaves =
      (stateOf (loopResult env a b mode pc)).cidSaves := by
  rw [scraper_cases]
  unfold loopResult
  generalize runRange env mode (pc.map CheckRow.cid) (cidRange a b) (initState pc) = R
  cases R with
  | error st => simp [finalState, stateOf]
  | ok st =>
    by_cases he : st.data_list.isEmpty
    · simp [finalState, stateOf, he]
    · simp [finalState, stateOf, he]

/-- A completed run writes the dataset exactly when the batch is
non-empty, and then writes the merge of the prior dataset with the batch;
an aborted run never writes it. -/
theorem scraper_dataset_write (env : Env) (a b : Nat) (mode : ScanMode)
    (pc : List CheckRow) (ps : List Record) :
    (∀ u st, scraper env a b mode pc ps = Except.ok (u, st) →
       st.datasetSaves = (if st.data_list.isEmpty then 0 else 1) ∧
       st.csvFile = (if st.data_list.isEmpty then none
         else some (update_signal_data ps st.data_list))) ∧
    (∀ st, scraper env a b mode pc ps = Except.error st →
       st.datasetSaves = 0 ∧ st.csvFile = none) := by
  obtain ⟨e, d, r, -, -, -, -, h5, h6, -, -, -, -⟩ :=
    runRange_delta env mode (pc.map CheckRow.cid) (cidRange a b) (initState pc)
  rw [show (initState pc).datasetSaves = 0 from rfl] at h5
  rw [show (initState pc).csvFile = none from rfl] at h6
  have hsc := scraper_cases env a b mode pc ps
  revert hsc h5 h6
  generalize runRange env mode (pc.map CheckRow.cid) (cidRange a b) (initState pc) = R
  intro h5 h6 hsc
  cases R with
  | error st' =>
    simp only [stateOf] at h5 h6
    constructor
    · intro u st heq
      rw [hsc] at heq
      exact absurd heq (by simp)
    · intro st heq
      rw [hsc] at heq
      simp only [Except.error.injEq] at heq
      subst heq
      exact ⟨h5, h6⟩
  | ok st' =>
    simp only [stateOf] at h5 h6
    constructor
    · intro u st heq
      rw [hsc] at heq
      by_cases hE : st'.data_list.isEmpty
      · simp only [hE, if_true] at heq
        simp only [Except.ok.injEq, Prod.mk.injEq] at heq
        obtain ⟨-, hst⟩ := heq
        subst hst
        simp [hE, h5, h6]
      · simp only [hE, Bool.false_eq_true, if_false] at heq
        simp only [Except.ok.injEq, Prod.mk.injEq] at heq
        obtain ⟨-, hst⟩ := heq
        subst hst
        simp [hE, h5]
    · intro st heq
      rw [hsc] at heq
      by_cases hE : st'.data_list.isEmpty
      · simp [hE] at heq
      · simp [hE] at heq

/-! ### Concrete environments and records used as test inputs -/

def fieldsA : Fields := ⟨"100", "panneau", "T1", "V1", "desc", "u", "rouge", "p", "[]"⟩

def fieldsB : Fields := ⟨"200", "autre", "T2", "V2", "d2", "u2", "bleu", "p2", "[]"⟩

def recA5 : Record := mkRecord 5 fieldsA

def recB5 : Record := mkRecord 5 fieldsB

def recC7 : Record := mkRecord 7 fieldsA

/-- Every probe answers 200 with no image on the page. -/
def envNoImage : Env :=
  { probe := fun _ => some (200, false)
    fetchStatus := fun _ => some 200
    extract := fun _ => some fieldsA
    imgFetch := fun _ => some 200 }

/-- Every CID succeeds end to end. -/
def envSuccess : Env :=
  { probe := fun _ => some (200, true)
    fetchStatus := fun _ => some 200
    extract := fun _ => some fieldsA
    imgFetch := fun _ => some 200 }

/-- The probe responds with HTTP 500. -/
def envProbe500 : Env :=
  { probe := fun _ => some (500, true)
    fetchStatus := fun _ => some 200
    extract := fun _ => some fieldsA
    imgFetch := fun _ => some 200 }

/-- The probe raises a connection error. -/
def envProbeRaise : Env :=
  { probe := fun _ => none
    fetchStatus := fun _ => some 200
    extract := fun _ => some fieldsA
    imgFetch := fun _ => some 200 }

/-- The detail-page fetch responds with HTTP 404. -/
def envFetch404 : Env :=
  { probe := fun _ => some (200, true)
    fetchStatus := fun _ => some 404
    extract := fun _ => some fieldsA
    imgFetch := fun _ => some 200 }

/-- The detail-page fetch raises a connection error. -/
def envFetchRaise : Env :=
  { probe := fun _ => some (200, true)
    fetchStatus := fun _ => none
    extract := fun _ => some fieldsA
    imgFetch := fun _ => some 200 }

/-- Field extraction raises. -/
def envExtractRaise : Env :=
  { probe := fun _ => some (200, true)
    fetchStatus := fun _ => some 200
    extract := fun _ => none
    imgFetch := fun _ => some 200 }

/-- The image download responds with HTTP 404. -/
def envImg404 : Env :=
  { probe := fun _ => some (200, true)
    fetchStatus := fun _ => some 200
    extract := fun _ => some fieldsA
    imgFetch := fun _ => some 404 }

/-! ### Claim C1 -/

/-- **C1** (counterexample): the checkpoint write does not overwrite the
prior entry.  A `full`-mode run over `[5, 5]` against a checkpoint store
already holding a row for CID 5, with a no-image probe, leaves a
persisted mapping holding two rows for CID 5 — not at most one. -/
theorem C1_counterexample :
    (rowsFor (finalState
      (scraper envNoImage 5 5 ScanMode.full [⟨5, true⟩] [])).cid_rows 5).length = 2 := by
  decide

/-- **C1** (amended): a checkpoint write appends one row for the current
CID without removing prior rows, so a single run adds at most one row per
CID; a run that starts from an empty checkpoint store therefore ends with
at most one row per CID, but re-scanning an already-checkpointed CID
duplicates its row. -/
theorem C1_checkpoint_append (env : Env) (mode : ScanMode) (a b : Nat)
    (ps : List Record) (c : Nat) :
    (∀ (snap : List Nat) (st : ScanState) (c' : Nat), ∃ ext,
        (stateOf (processCid env mode snap st c')).cid_rows = st.cid_rows ++ ext ∧
        ext.length ≤ 1 ∧ ∀ r ∈ ext, r.cid = c') ∧
    (rowsFor (finalState (scraper env a b mode [] ps)).cid_rows c).length ≤ 1 := by
  constructor
  · intro snap st c'
    obtain ⟨ext, dext, rext, h1, -, -, -, -, -, -, hlen, hext, -, -⟩ :=
      processCid_effects env mode snap st c'
    exact ⟨ext, h1, hlen, hext⟩
  · have hs := (scraper_state env a b mode [] ps).1
    unfold loopResult at hs
    rw [rowsFor, hs]
    have hcount := runRange_rowsFor_count env mode
      (([] : List CheckRow).map CheckRow.cid) (cidRange a b) (initState []) c
    have hinit : (rowsFor (initState ([] : List CheckRow)).cid_rows c).length = 0 := rfl
    have hnd : (cidRange a b).Nodup := List.nodup_range' a (b + 1 - a) 1 (by norm_num)
    have hc1 : (cidRange a b).count c ≤ 1 := List.nodup_iff_count_le_one.mp hnd c
    rw [rowsFor] at hcount
    omega

/-! ### Claim C4 -/

/-- **C4**: the dataset merge concatenates and deduplicates by CID keeping
the last occurrence: when the existing collection and the new batch both
hold a record for CID `c`, the merged result holds exactly one record for
`c`, the last `c`-record of the new batch; and merging the same batch a
second time yields the same result. -/
theorem C4_merge_lastWriteWins (e n : List Record) (c : Nat) (re rn : Record)
    (_hre : re ∈ e) (_hrec : re.cid = c) (hrn : rn ∈ n) (hrnc : rn.cid = c) :
    (∃ w, (recsFor n c).getLast? = some w ∧ w ∈ n ∧
        recsFor (update_signal_data e n) c = [w]) ∧
    update_signal_data (update_signal_data e n) n = update_signal_data e n := by
  refine ⟨?_, update_signal_data_idem e n⟩
  have hmem : rn ∈ recsFor n c := by
    simp [recsFor, List.mem_filter, hrn, hrnc]
  have hne : recsFor n c ≠ [] := fun hnil => by
    rw [hnil] at hmem
    exact List.not_mem_nil rn hmem
  cases hlast : (recsFor n c).getLast? with
  | none => exact absurd (List.getLast?_eq_none_iff.mp hlast) hne
  | some w =>
    refine ⟨w, rfl, ?_, ?_⟩
    · have hw : w ∈ recsFor n c := by
        obtain ⟨hh, hww⟩ := List.mem_getLast?_eq_getLast (l := recsFor n c) (x := w)
          (Option.mem_def.mpr hlast)
        rw [hww]
        exact List.getLast_mem hh
      exact (List.mem_filter.mp hw).1
    · rw [update_signal_data, dedupLast_filter]
      have hsplit : recsFor (e ++ n) c = recsFor e c ++ recsFor n c := by
        simp [recsFor, List.filter_append]
      rw [hsplit, List.getLast?_append_of_ne_nil _ hne, hlast]
      rfl

/-- **C4** (witness): merging `[recA5]` with `[recB5]` (same CID 5) keeps
exactly the new record, and a second merge of the same batch is a no-op. -/
theorem C4_merge_lastWriteWins_witness :
    (∃ w, (recsFor [recB5] 5).getLast? = some w ∧ w ∈ [recB5] ∧
        recsFor (update_signal_data [recA5] [recB5]) 5 = [w]) ∧
    update_signal_data (update_signal_data [recA5] [recB5]) [recB5] =
      update_signal_data [recA5] [recB5] :=
  C4_merge_lastWriteWins [recA5] [recB5] 5 recA5 recB5
    (by decide) (by decide) (by decide) (by decide)

/-! ### Claim C7 -/

/-- **C7** (counterexample): a network-touching CID probed and found to
have no image gets no inter-request delay: the run issues one request for
CID 5 yet sleeps zero times. -/
theorem C7_counterexample :
    (finalState (scraper envNoImage 5 5 ScanMode.full [] [])).reqs = [5] ∧
    (finalState (scraper envNoImage 5 5 ScanMode.full [] [])).sleeps = [] := by
  decide

/-- **C7** (amended): the fixed delay runs exactly after the CIDs whose
record is appended to the batch (the fully successful fetches) — not after
skips, not after no-image probes, not after failed CIDs. -/
theorem C7_sleep_iff_recorded (env : Env) (mode : ScanMode) (a b : Nat)
    (pc : List CheckRow) (ps : List Record) :
    (finalState (scraper env a b mode pc ps)).sleeps =
      (finalState (scraper env a b mode pc ps)).data_list.map Record.cid := by
  obtain ⟨-, h2, -, h4, -, -⟩ := scraper_state env a b mode pc ps
  rw [h4, h2]
  unfold loopResult
  obtain ⟨e, d, r, -, hdata, -, hsleeps, -, -, -, -, -, -⟩ :=
    runRange_delta env mode (pc.map CheckRow.cid) (cidRange a b) (initState pc)
  rw [hsleeps, hdata]
  simp [initState]

/-! ### Claim C10 -/

/-- **C10** (counterexample): with an existing collection holding two
records for CID 5, the first of them disappears from the merge even though
CID 5 does not occur in the new batch — merging is not frame-preserving on
arbitrary existing collections. -/
theorem C10_counterexample :
    recA5 ∈ ([recA5, recB5] : List Record) ∧
    (∀ s ∈ ([recC7] : List Record), s.cid ≠ recA5.cid) ∧
    recA5 ∉ update_signal_data [recA5, recB5] [recC7] := by
  decide

/-- **C10** (amended): an existing record that is the unique record for
its CID in the existing collection (the store invariant) and whose CID
does not occur in the new batch appears unchanged — and still unique for
its CID — in the merged result. -/
theorem C10_frame (e n : List Record) (r : Record)
    (hr : recsFor e r.cid = [r])
    (hn : ∀ s ∈ n, s.cid ≠ r.cid) :
    recsFor (update_signal_data e n) r.cid = [r] ∧
    r ∈ update_signal_data e n := by
  have hnn : recsFor n r.cid = [] := by
    refine List.filter_eq_nil_iff.mpr (fun s hs => ?_)
    simp only [beq_iff_eq]
    exact hn s hs
  have hmain : recsFor (update_signal_data e n) r.cid = [r] := by
    rw [update_signal_data, dedupLast_filter]
    have hsplit : recsFor (e ++ n) r.cid = recsFor e r.cid ++ recsFor n r.cid := by
      simp [recsFor, List.filter_append]
    rw [hsplit, hnn, List.append_nil, hr]
    rfl
  refine ⟨hmain, ?_⟩
  have hin : r ∈ recsFor (update_signal_data e n) r.cid := by
    rw [hmain]
    exact List.mem_singleton.mpr rfl
  exact (List.mem_filter.mp hin).1

/-- **C10** (witness): the unique CID-5 record of `[recA5]` survives a
merge with the CID-7 batch `[recC7]`. -/
theorem C10_frame_witness :
    recsFor (update_signal_data [recA5] [recC7]) recA5.cid = [recA5] ∧
    recA5 ∈ update_signal_data [recA5] [recC7] :=
  C10_frame [recA5] [recC7] recA5 (by decide) (by decide)

/-! ### Claim C2 -/

/-- **C2** (counterexample): two per-CID transport failures that the
controller does not handle as the claim states.  A probe answering
HTTP 500 is treated as "no image" and writes the checkpoint entry
`{5, False}`; a probe raising a connection error aborts the whole run
(Python return is an exception, not `None`). -/
theorem C2_counterexample :
    rowsFor (finalState (scraper envProbe500 5 5 ScanMode.full [] [])).cid_rows 5 =
      [⟨5, false⟩] ∧
    pyReturn (scraper envProbeRaise 5 5 ScanMode.full [] []) = none := by
  decide

/-- **C2** (amended): a non-success status on the detail-page fetch
(`env₁`) and an extraction error (`env₂`) are handled per CID — no
checkpoint row, and the loop continues with the next CIDs; but a
non-success status on the probe (`env₃`) writes `{cid, False}` to the
checkpoint, and a raised connection error during the probe (`env₄`) or
the detail-page fetch (`env₅`) is not caught and aborts the scan. -/
theorem C2_per_cid_failures (env1 env2 env3 env4 env5 : Env) (mode : ScanMode)
    (snap : List Nat) (st : ScanState) (c k s : Nat) (p : Bool) (cs : List Nat)
    (hs1 : shouldSkip mode snap st.cid_rows c = false)
    (h1p : env1.probe c = some (200, true))
    (h1f : env1.fetchStatus c = some k) (h1k : k ≠ 200)
    (h2p : env2.probe c = some (200, true))
    (h2f : env2.fetchStatus c = some 200) (h2x : env2.extract c = none)
    (h3p : env3.probe c = some (s, p)) (h3s : s ≠ 200)
    (h4p : env4.probe c = none)
    (h5p : env5.probe c = some (200, true)) (h5f : env5.fetchStatus c = none) :
    (runRange env1 mode snap (c :: cs) st =
        runRange env1 mode snap cs { st with reqs := (st.reqs ++ [c]) ++ [c] } ∧
      rowsFor ({ st with reqs := (st.reqs ++ [c]) ++ [c] } : ScanState).cid_rows c =
        rowsFor st.cid_rows c) ∧
    (runRange env2 mode snap (c :: cs) st =
        runRange env2 mode snap cs { st with reqs := (st.reqs ++ [c]) ++ [c] }) ∧
    (processCid env3 mode snap st c = Except.ok { st with
        cid_rows := st.cid_rows ++ [⟨c, false⟩]
        cidSaves := st.cidSaves + 1
        reqs := st.reqs ++ [c] }) ∧
    (processCid env4 mode snap st c = Except.error { st with reqs := st.reqs ++ [c] }) ∧
    (processCid env5 mode snap st c =
        Except.error { st with reqs := (st.reqs ++ [c]) ++ [c] }) := by
  refine ⟨⟨?_, rfl⟩, ?_, ?_, ?_, ?_⟩
  · rw [show runRange env1 mode snap (c :: cs) st =
        (match processCid env1 mode snap st c with
         | Except.error st' => Except.error st'
         | Except.ok st' => runRange env1 mode snap cs st') from rfl]
    rw [step_fetch_bad_status env1 mode snap st c k hs1 h1p h1f h1k]
  · rw [show runRange env2 mode snap (c :: cs) st =
        (match processCid env2 mode snap st c with
         | Except.error st' => Except.error st'
         | Except.ok st' => runRange env2 mode snap cs st') from rfl]
    rw [step_extract_none env2 mode snap st c hs1 h2p h2f h2x]
  · exact step_probe_bad_status env3 mode snap st c s p hs1 h3p h3s
  · exact step_probe_conn_fail env4 mode snap st c hs1 h4p
  · exact step_fetch_conn_fail env5 mode snap st c hs1 h5p h5f

/-- **C2** (witness): instantiating the amended theorem on the concrete
environments shows the probe-500 iteration writing `{5, False}`. -/
theorem C2_per_cid_failures_witness :
    processCid envProbe500 ScanMode.full [] (initState []) 5 =
      Except.ok { initState ([] : List CheckRow) with
        cid_rows := (initState ([] : List CheckRow)).cid_rows ++ [⟨5, false⟩]
        cidSaves := (initState ([] : List CheckRow)).cidSaves + 1
        reqs := (initState ([] : List CheckRow)).reqs ++ [5] } :=
  (C2_per_cid_failures envFetch404 envExtractRaise envProbe500 envProbeRaise envFetchRaise
    ScanMode.full [] (initState []) 5 404 500 true []
    (by decide) rfl rfl (by decide) rfl rfl rfl rfl (by decide) rfl rfl rfl).2.2.1

/-! ### Claim C3 -/

/-- **C3** (counterexample): the third mode reads only the first matching
row.  With a checkpoint store holding `⟨5, true⟩` then `⟨5, false⟩`, the
store contains an entry for CID 5 with `has_image = false`, yet a run in
the third mode still issues a network request for CID 5. -/
theorem C3_counterexample :
    (⟨5, false⟩ : CheckRow) ∈ ([⟨5, true⟩, ⟨5, false⟩] : List CheckRow) ∧
    (finalState
      (scraper envNoImage 5 5 ScanMode.part [⟨5, true⟩, ⟨5, false⟩] [])).reqs = [5] := by
  decide

theorem find?_cid_eq_head_filter (rows : List CheckRow) (c : Nat) :
    rows.find? (fun r => r.cid == c) = (rowsFor rows c).head? := by
  induction rows with
  | nil => rfl
  | cons r t ih =>
    by_cases h : (r.cid == c) = true
    · have h' : (fun s : CheckRow => s.cid == c) r = true := h
      rw [List.find?_cons_of_pos t h']
      rw [show rowsFor (r :: t) c = r :: rowsFor t c from by
        simp [rowsFor, List.filter_cons, h]]
      rfl
    · have hf : (r.cid == c) = false := by simpa using h
      have h' : ¬((fun s : CheckRow => s.cid == c) r = true) := h
      rw [List.find?_cons_of_neg t h']
      rw [show rowsFor (r :: t) c = rowsFor t c from by
        simp [rowsFor, List.filter_cons, hf]]
      exact ih

/-- **C3** (amended): the skip decision — `full` never skips; `minimal`
skips exactly the CIDs of the snapshot taken at run start; the third mode
skips exactly the CIDs of the snapshot whose **first** matching checkpoint
row has `has_image = false` (which coincides with "some entry records
`has_image = false`" only when the store holds at most one row for the
CID); a skipped CID leaves the state untouched; and in `minimal` mode a
CID of the prior store never receives a network request. -/
theorem C3_skip_decision (env : Env) (mode : ScanMode) (snap : List Nat)
    (rows : List CheckRow) (st : ScanState) (a b c : Nat)
    (pc : List CheckRow) (ps : List Record) :
    (shouldSkip ScanMode.full snap rows c = false) ∧
    (shouldSkip ScanMode.minimal snap rows c = true ↔ c ∈ snap) ∧
    (shouldSkip ScanMode.part snap rows c = true ↔
      c ∈ snap ∧ ((rows.find? (fun r => r.cid == c)).map CheckRow.has_image = some false)) ∧
    (shouldSkip mode snap st.cid_rows c = true → processCid env mode snap st c = Except.ok st) ∧
    (c ∈ pc.map CheckRow.cid →
      c ∉ (finalState (scraper env a b ScanMode.minimal pc ps)).reqs) ∧
    ((rowsFor rows c).length ≤ 1 →
      (shouldSkip ScanMode.part (rows.map CheckRow.cid) rows c = true ↔
        (⟨c, false⟩ : CheckRow) ∈ rows)) := by
  refine ⟨by simp [shouldSkip], by simp [shouldSkip], by simp [shouldSkip], ?_, ?_, ?_⟩
  · intro hs
    exact step_skip env mode snap st c hs
  · intro hm
    have hst := (scraper_state env a b ScanMode.minimal pc ps).2.2.1
    rw [hst]
    unfold loopResult
    refine runRange_no_request env ScanMode.minimal (pc.map CheckRow.cid) c
      ?_ (cidRange a b) (initState pc) ?_
    · intro st'
      refine step_skip env ScanMode.minimal (pc.map CheckRow.cid) st' c ?_
      simp [shouldSkip, hm]
    · simp [initState]
  · intro hlen
    rw [show shouldSkip ScanMode.part (rows.map CheckRow.cid) rows c =
        ((rows.map CheckRow.cid).contains c &&
          ((rows.find? (fun r => r.cid == c)).map CheckRow.has_image == some false))
      from by simp [shouldSkip]]
    rw [find?_cid_eq_head_filter]
    constructor
    · intro hsk
      simp only [Bool.and_eq_true, beq_iff_eq] at hsk
      obtain ⟨-, hhd⟩ := hsk
      cases hrf : rowsFor rows c with
      | nil => rw [hrf] at hhd; simp at hhd
      | cons r t =>
        rw [hrf] at hhd
        simp only [List.head?_cons, Option.map_some'] at hhd
        have hrmem : r ∈ rowsFor rows c := by rw [hrf]; exact List.mem_cons_self r t
        have hrc : r.cid = c := by
          have := (List.mem_filter.mp hrmem).2
          simpa using this
        have hrrows : r ∈ rows := (List.mem_filter.mp hrmem).1
        have : r = ⟨c, false⟩ := by
          cases r with
          | mk rc ri =>
            simp only at hrc
            simp only [Option.some.injEq] at hhd
            simp [hrc, hhd]
        rw [this] at hrrows
        exact hrrows
    · intro hmem
      have hfmem : (⟨c, false⟩ : CheckRow) ∈ rowsFor rows c := by
        refine List.mem_filter.mpr ⟨hmem, ?_⟩
        simp
      have hsingle : rowsFor rows c = [⟨c, false⟩] := by
        cases hrf : rowsFor rows c with
        | nil => rw [hrf] at hfmem; exact absurd hfmem (List.not_mem_nil _)
        | cons r t =>
          rw [hrf] at hfmem hlen
          simp only [List.length_cons] at hlen
          have ht : t = [] := List.length_eq_zero.mp (by omega)
          subst ht
          have : (⟨c, false⟩ : CheckRow) = r := List.mem_singleton.mp hfmem
          rw [← this]
      rw [hsingle]
      simp only [List.head?_cons, Option.map_some', Bool.and_eq_true, beq_iff_eq]
      refine ⟨?_, trivial⟩
      have hcm : c ∈ rows.map CheckRow.cid := List.mem_map.mpr ⟨⟨c, false⟩, hmem, rfl⟩
      simpa using hcm

/-- **C3** (witness): a CID checkpointed once with `has_image = false` is
skipped by the third mode, via the amended decision. -/
theorem C3_skip_decision_witness :
    shouldSkip ScanMode.part (([⟨5, false⟩] : List CheckRow).map CheckRow.cid)
      [⟨5, false⟩] 5 = true :=
  ((C3_skip_decision envNoImage ScanMode.full [] [⟨5, false⟩] (initState []) 5 5 5 [] []).2.2.2.2.2
    (by decide)).mpr (by decide)

/-! ### Claim C5 -/

/-- **C5** (counterexample): a completed run whose only CID is skipped
fetches nothing, so the dataset is persisted zero times — not exactly
once. -/
theorem C5_counterexample :
    pyReturn (scraper envNoImage 5 5 ScanMode.minimal [⟨5, false⟩] []) = some () ∧
    (finalState (scraper envNoImage 5 5 ScanMode.minimal [⟨5, false⟩] [])).datasetSaves
      = 0 := by
  decide

/-- **C5** (amended): the loop itself never persists the dataset; a
completed run persists it exactly once when the batch is non-empty and
zero times when it is empty, writing the merge of the prior dataset with
the batch; an aborted run persists it zero times; and the checkpoint file
is saved once per appended checkpoint row, immediately at the write. -/
theorem C5_persistence (env : Env) (mode : ScanMode) (a b : Nat)
    (pc : List CheckRow) (ps : List Record) :
    (∀ (snap : List Nat) (L : List Nat) (st : ScanState),
        (stateOf (runRange env mode snap L st)).datasetSaves = st.datasetSaves) ∧
    (∀ u st, scraper env a b mode pc ps = Except.ok (u, st) →
        st.datasetSaves = (if st.data_list.isEmpty then 0 else 1) ∧
        st.csvFile = (if st.data_list.isEmpty then none
          else some (update_signal_data ps st.data_list))) ∧
    (∀ st, scraper env a b mode pc ps = Except.error st → st.datasetSaves = 0) ∧
    (∀ (snap : List Nat) (st : ScanState) (c : Nat),
        (stateOf (processCid env mode snap st c)).cidSaves + st.cid_rows.length =
          st.cidSaves + (stateOf (processCid env mode snap st c)).cid_rows.length) := by
  refine ⟨?_, (scraper_dataset_write env a b mode pc ps).1,
    fun st h => ((scraper_dataset_write env a b mode pc ps).2 st h).1, ?_⟩
  · intro snap L st
    obtain ⟨-, -, -, -, -, -, -, h5, -, -, -, -, -⟩ := runRange_delta env mode snap L st
    exact h5
  · intro snap st c
    obtain ⟨ext, dext, rext, h1, -, -, -, -, -, h7, -, -, -, -⟩ :=
      processCid_effects env mode snap st c
    rw [h1, h7, List.length_append]
    omega

/-- **C5** (witness): a run with one successful fetch persists the
dataset once, as the merge of the prior dataset with the batch. -/
theorem C5_persistence_witness :
    (finalState (scraper envSuccess 5 5 ScanMode.full [] [])).datasetSaves =
      (if (finalState (scraper envSuccess 5 5 ScanMode.full [] [])).data_list.isEmpty
        then 0 else 1) ∧
    (finalState (scraper envSuccess 5 5 ScanMode.full [] [])).csvFile =
      (if (finalState (scraper envSuccess 5 5 ScanMode.full [] [])).data_list.isEmpty
        then none
        else some (update_signal_data []
          (finalState (scraper envSuccess 5 5 ScanMode.full [] [])).data_list)) :=
  (C5_persistence envSuccess ScanMode.full 5 5 [] []).2.1 ()
    (finalState (scraper envSuccess 5 5 ScanMode.full [] [])) rfl

/-! ### Claim C6 -/

/-- **C6**: a CID whose processing reaches field extraction and raises
there acquires no checkpoint row during the run and contributes no record
to the batch merged into the dataset. -/
theorem C6_extraction_error (env : Env) (mode : ScanMode) (a b : Nat)
    (pc : List CheckRow) (ps : List Record) (c : Nat)
    (hp : env.probe c = some (200, true))
    (hf : env.fetchStatus c = some 200)
    (hx : env.extract c = none) :
    rowsFor (finalState (scraper env a b mode pc ps)).cid_rows c = rowsFor pc c ∧
    recsFor (finalState (scraper env a b mode pc ps)).data_list c = [] := by
  have hstate := scraper_state env a b mode pc ps
  have hstep : ∀ st' : ScanState,
      rowsFor (stateOf (processCid env mode (pc.map CheckRow.cid) st' c)).cid_rows c =
        rowsFor st'.cid_rows c ∧
      recsFor (stateOf (processCid env mode (pc.map CheckRow.cid) st' c)).data_list c =
        recsFor st'.data_list c := by
    intro st'
    by_cases hs : shouldSkip mode (pc.map CheckRow.cid) st'.cid_rows c = true
    · rw [step_skip env mode _ st' c hs]
      exact ⟨rfl, rfl⟩
    · rw [step_extract_none env mode _ st' c (Bool.eq_false_iff.mpr hs) hp hf hx]
      exact ⟨rfl, rfl⟩
  have hrun := runRange_preserve_of_step env mode (pc.map CheckRow.cid) c hstep
    (cidRange a b) (initState pc)
  constructor
  · rw [hstate.1]
    unfold loopResult
    rw [hrun.1]
    rfl
  · rw [hstate.2.1]
    unfold loopResult
    rw [hrun.2]
    rfl

/-- **C6** (witness): with extraction raising at CID 5, a full-mode run
over `[5, 5]` from empty stores records nothing for CID 5. -/
theorem C6_extraction_error_witness :
    rowsFor (finalState (scraper envExtractRaise 5 5 ScanMode.full [] [])).cid_rows 5 =
      rowsFor [] 5 ∧
    recsFor (finalState (scraper envExtractRaise 5 5 ScanMode.full [] [])).data_list 5
      = [] :=
  C6_extraction_error envExtractRaise ScanMode.full 5 5 [] [] 5 rfl rfl rfl

/-! ### Claim C8 -/

/-- **C8** (counterexample): two completed runs that fetch different
numbers of CIDs return the same value — the return value carries no
fetched/skipped/failed counts. -/
theorem C8_counterexample :
    pyReturn (scraper envSuccess 5 5 ScanMode.full [] []) =
      pyReturn (scraper envNoImage 5 5 ScanMode.full [] []) ∧
    (finalState (scraper envSuccess 5 5 ScanMode.full [] [])).data_list.length = 1 ∧
    (finalState (scraper envNoImage 5 5 ScanMode.full [] [])).data_list.length = 0 := by
  decide

/-- **C8** (amended): `scraper` returns Python `None` on every completed
run — a constant carrying no counts; a run either raises or returns that
constant. -/
theorem C8_return_value (env : Env) (a b : Nat) (mode : ScanMode)
    (pc : List CheckRow) (ps : List Record) :
    (∀ u st, scraper env a b mode pc ps = Except.ok (u, st) → u = ()) ∧
    (pyReturn (scraper env a b mode pc ps) = none ∨
      pyReturn (scraper env a b mode pc ps) = some ()) := by
  constructor
  · intro u st h
    cases u
    rfl
  · cases h : scraper env a b mode pc ps with
    | error st =>
      left
      simp [pyReturn]
    | ok q =>
      right
      obtain ⟨u, st⟩ := q
      cases u
      simp [pyReturn]

/-- **C8** (witness): the amended theorem applied to a concrete completed
run. -/
theorem C8_return_value_witness :
    (() : Unit) = () ∧
    (pyReturn (scraper envSuccess 5 5 ScanMode.full [] []) = none ∨
      pyReturn (scraper envSuccess 5 5 ScanMode.full [] []) = some ()) :=
  ⟨(C8_return_value envSuccess 5 5 ScanMode.full [] []).1 ()
      (finalState (scraper envSuccess 5 5 ScanMode.full [] [])) rfl,
    (C8_return_value envSuccess 5 5 ScanMode.full [] []).2⟩

/-! ### Claim C9 -/

/-- **C9**: when the image download answers a non-success status for a CID
whose probe detected an image and whose extraction succeeded, the
iteration still appends the checkpoint row `{cid, True}` (saved
immediately), still appends the record to the batch, still sleeps — and
only the image file write is skipped. -/
theorem C9_img_transport_error (env : Env) (mode : ScanMode) (snap : List Nat)
    (st : ScanState) (c k : Nat) (f : Fields)
    (hs : shouldSkip mode snap st.cid_rows c = false)
    (hp : env.probe c = some (200, true))
    (hf : env.fetchStatus c = some 200)
    (hx : env.extract c = some f)
    (hg : env.imgFetch c = some k) (hk : k ≠ 200) :
    ∃ st', processCid env mode snap st c = Except.ok st' ∧
      st'.cid_rows = st.cid_rows ++ [⟨c, true⟩] ∧
      st'.data_list = st.data_list ++ [mkRecord c f] ∧
      st'.images = st.images ∧
      st'.cidSaves = st.cidSaves + 1 ∧
      st'.sleeps = st.sleeps ++ [c] :=
  ⟨_, step_img_bad_status env mode snap st c f k hs hp hf hx hg hk,
    rfl, rfl, rfl, rfl, rfl⟩

/-- **C9** (witness): a 404 on the image download at CID 5 still yields
the checkpoint row and the record, with no image file. -/
theorem C9_img_transport_error_witness :
    ∃ st', processCid envImg404 ScanMode.full [] (initState []) 5 = Except.ok st' ∧
      st'.cid_rows = (initState ([] : List CheckRow)).cid_rows ++ [⟨5, true⟩] ∧
      st'.data_list = (initState ([] : List CheckRow)).data_list ++ [mkRecord 5 fieldsA] ∧
      st'.images = (initState ([] : List CheckRow)).images ∧
      st'.cidSaves = (initState ([] : List CheckRow)).cidSaves + 1 ∧
      st'.sleeps = (initState ([] : List CheckRow)).sleeps ++ [5] :=
  C9_img_transport_error envImg404 ScanMode.full [] (initState []) 5 404 fieldsA
    (by decide) rfl rfl rfl rfl (by decide)

end MtqScrap
